import Mathlib

/-!
# Verification of the session-backed JWT authentication subsystem

Shallow embedding of the authentication core of the ZeroTrust-IAM-Analyzer
backend (`backend/app`): the user/role/session data model
(`app/models/user.py`, `app/models/role.py`, `app/models/session.py`), the
authentication service (`app/services/auth_service.py`), the session cache
(`app/services/cache_service.py`), the request-time authentication
dependencies (`app/core/dependencies.py`) and the auth endpoints
(`app/api/v1/auth.py`).

Modelling conventions:
* `datetime.utcnow()` is an explicit `now : Nat` parameter (seconds).
* UUIDs are `Nat`s; `str(uuid)` is `toString`, `uuid.UUID(s)` is a
  digit-string parse (`parseUserId`; succeeds exactly on well-formed ids).
* The jose JWT library is external: a token value is either a payload
  signed with the server secret (`Token.signed`) or garbage
  (`Token.invalid`); `jwt.decode` checks the signature and the embedded
  `exp` claim and is modelled by `jwtDecode`.
* bcrypt is external: password checking is an abstract
  `verify : String → Option String → Bool` parameter.
* `json.loads` applied to a stored `Role.permissions` string is external;
  its possible outcomes are modelled by `PermPayload` (decode error,
  decodes to a non-list, decodes to a list of strings).
* The relational store is a pure value (`Db`); ORM mutation + `commit` is
  replacement of the row with the same primary key.  Redis is a pure
  association list of entries with absolute expiry times (`Cache`).
-/

deriving instance DecidableEq for Except

/-- `UserStatus` enum from `app/models/user.py`. -/
inductive UserStatus where
  | active
  | inactive
  | suspended
  | pending_verification
  | locked
deriving DecidableEq, Repr

/-- Outcome of `json.loads` on a stored `Role.permissions` string
(`require_permission` in `app/core/dependencies.py` distinguishes exactly
these three cases): the string fails to decode, decodes to a non-list
value, or decodes to a list of permission strings. -/
inductive PermPayload where
  | malformed
  | nonList
  | list (perms : List String)
deriving DecidableEq, Repr

/-- `Role` model (`app/models/role.py`), restricted to the fields the
auth core reads.  `permissions` is the nullable serialized column; `none`
models NULL / the empty string (both falsy in
`if role.is_active and role.permissions`). -/
structure Role where
  id : Nat
  name : String
  is_active : Bool
  permissions : Option PermPayload
deriving DecidableEq, Repr

/-- `User` model (`app/models/user.py`), restricted to the fields the
auth core reads and writes. -/
structure User where
  id : Nat
  email : String
  username : String
  password_hash : Option String
  status : UserStatus
  is_verified : Bool
  is_active : Bool
  failed_login_attempts : Nat
  last_login_at : Option Nat
  last_login_ip : Option String
  roles : List Role
deriving DecidableEq, Repr

/-- `User.is_account_locked` property (`app/models/user.py`):
`self.status == UserStatus.LOCKED or self.failed_login_attempts >= 5`. -/
def User.is_account_locked (u : User) : Bool :=
  u.status == UserStatus.locked || u.failed_login_attempts ≥ 5

/-- `User.lock_account` (`app/models/user.py`): sets status to LOCKED. -/
def User.lock_account (u : User) : User :=
  { u with status := UserStatus.locked }

/-- `User.unlock_account` (`app/models/user.py`). -/
def User.unlock_account (u : User) : User :=
  { u with status := UserStatus.active, failed_login_attempts := 0 }

/-- `User.record_login_attempt` (`app/models/user.py`): on success,
stamps last-login metadata, resets the failure counter and auto-activates
a pending-verification account; on failure, increments the counter and
locks the account once it reaches 5. -/
def User.record_login_attempt (u : User) (success : Bool)
    (ip : Option String) (now : Nat) : User :=
  if success then
    let u1 := { u with
      last_login_at := some now
      last_login_ip := ip
      failed_login_attempts := 0 }
    if u1.status == UserStatus.pending_verification then
      { u1 with status := UserStatus.active, is_verified := true }
    else u1
  else
    let u1 := { u with failed_login_attempts := u.failed_login_attempts + 1 }
    if u1.failed_login_attempts ≥ 5 then u1.lock_account else u1

/-- Python's `str.lower()` (external), as a character-wise map. -/
def str_lower (s : String) : String :=
  String.mk (s.data.map Char.toLower)

/-- `AuthService.get_user_by_email` (`app/services/auth_service.py`):
first user whose stored (lowercased) email equals the lowercased input. -/
def get_user_by_email (users : List User) (email : String) : Option User :=
  users.find? (fun u => u.email == str_lower email)

/-- `AuthService.get_user_by_username` (`app/services/auth_service.py`). -/
def get_user_by_username (users : List User) (username : String) : Option User :=
  users.find? (fun u => u.username == str_lower username)

/-- `AuthService.get_user_by_id` (`app/services/auth_service.py`). -/
def get_user_by_id (users : List User) (user_id : Nat) : Option User :=
  users.find? (fun u => u.id == user_id)

/-- The user-lookup sequence at the top of `AuthService.authenticate_user`:
try email first, then username. -/
def lookup_user (users : List User) (username_or_email : String) : Option User :=
  match get_user_by_email users username_or_email with
  | some u => some u
  | none => get_user_by_username users username_or_email

/-- ORM mutation + commit of a user row: replace the row with the same
primary key. -/
def updateUserList (users : List User) (u : User) : List User :=
  users.map (fun v => if v.id == u.id then u else v)

/-- Error taxonomy of `AuthService.authenticate_user`
(`app/services/auth_service.py`): 401 invalid credentials,
403 account locked, 403 account inactive. -/
inductive AuthError where
  | invalidCredentials
  | accountLocked
  | accountInactive
deriving DecidableEq, Repr

/-- `AuthService.authenticate_user` (`app/services/auth_service.py`):
lookup by email then username; generic 401 when not found; 403 when
`is_account_locked`; 403 when not `is_active`; on password mismatch the
failed attempt is recorded (auto-locking at 5) and committed before the
401 is raised; on match the success is recorded and committed and the
(mutated) user is returned.  The pair is (outcome, committed user table). -/
def authenticate_user (verify : String → Option String → Bool)
    (users : List User) (username_or_email password : String)
    (ip : Option String) (now : Nat) :
    Except AuthError User × List User :=
  match lookup_user users username_or_email with
  | none => (Except.error AuthError.invalidCredentials, users)
  | some user =>
    if user.is_account_locked then
      (Except.error AuthError.accountLocked, users)
    else if !user.is_active then
      (Except.error AuthError.accountInactive, users)
    else if !verify password user.password_hash then
      let user2 := user.record_login_attempt false ip now
      (Except.error AuthError.invalidCredentials, updateUserList users user2)
    else
      let user2 := user.record_login_attempt true ip now
      (Except.ok user2, updateUserList users user2)

/-- Decoded JWT claim set as produced/consumed by the auth endpoints
(`app/api/v1/auth.py`, `app/core/dependencies.py`).  Claims read with
`payload.get(...)` are `Option`s; `roles` defaults to the empty list. -/
structure TokenPayload where
  sub : Option String
  email : Option String
  roles : List String
  jti : Option String
  type : Option String
  exp : Nat
deriving DecidableEq, Repr

/-- A bearer token value: either a claim set signed with
`settings.secret_key` (produced by `jwt.encode`), or anything else
(malformed / wrong signature). -/
inductive Token where
  | signed (payload : TokenPayload)
  | invalid
deriving DecidableEq, Repr

/-- `jwt.decode(token, settings.secret_key, algorithms=[...])`: fails
(`JWTError`) on a bad signature or once the embedded `exp` claim has
passed (jose treats the token as expired when `exp < now`). -/
def jwtDecode (t : Token) (now : Nat) : Option TokenPayload :=
  match t with
  | Token.signed p => if p.exp < now then none else some p
  | Token.invalid => none

/-- `uuid.UUID(user_id_str)` on a model user id: parse of the rendered id. -/
def parseUserId (s : String) : Option Nat :=
  if s.data ≠ [] ∧ s.data.all (fun c => c.isDigit) then
    some (s.data.foldl (fun acc c => 10 * acc + (c.toNat - 48)) 0)
  else none

/-- `Session` model (`app/models/session.py`): one row per issued
access/refresh token pair.  `token_jti` is the access-token jti. -/
structure Session where
  id : Nat
  user_id : Nat
  token_jti : String
  refresh_token_jti : Option String
  ip_address : Option String
  user_agent : Option String
  expires_at : Nat
  is_revoked : Bool
  revoked_at : Option Nat
  last_activity_at : Option Nat
  created_at : Nat
deriving DecidableEq, Repr

/-- `Session.revoke` (`app/models/session.py`): sets `is_revoked = True`
and `revoked_at = datetime.utcnow()` — unconditionally, also when the
session is already revoked. -/
def Session.revoke (s : Session) (now : Nat) : Session :=
  { s with is_revoked := true, revoked_at := some now }

/-- `Session.is_expired` property. -/
def Session.is_expired (s : Session) (now : Nat) : Bool :=
  now > s.expires_at

/-- `Session.is_valid` property. -/
def Session.is_valid (s : Session) (now : Nat) : Bool :=
  !s.is_revoked && !s.is_expired now

/-- The relational store as seen by the auth core: the user table and the
session table. -/
structure Db where
  users : List User
  sessions : List Session
deriving DecidableEq, Repr

/-- ORM mutation + commit of a session row: replace the row with the same
primary key. -/
def updateSessionList (sessions : List Session) (s : Session) : List Session :=
  sessions.map (fun v => if v.id == s.id then s else v)

/-- `db.query(Session).filter(Session.token_jti == jti).first()`. -/
def find_by_access_jti (sessions : List Session) (jti : String) : Option Session :=
  sessions.find? (fun s => s.token_jti == jti)

/-- `db.query(Session).filter(Session.refresh_token_jti == jti).first()`. -/
def find_by_refresh_jti (sessions : List Session) (jti : String) : Option Session :=
  sessions.find? (fun s => s.refresh_token_jti == some jti)

/-- Error taxonomy of the token-authenticated paths
(`app/core/dependencies.py`, `app/api/v1/auth.py`).  Every constructor is
surfaced as HTTP 401 with its own detail string; `invalidToken` is the
shared `credentials_exception`. -/
inductive TokenAuthError where
  | invalidToken
  | invalidTokenType
  | sessionNotFound
  | sessionRevoked
  | sessionExpired
  | userNotFound
  | userInactive
deriving DecidableEq, Repr

/-- `get_current_user` (`app/core/dependencies.py`): decode/verify the
bearer token, require the `sub`/`jti` claims and `type == "access"`,
parse the user id, look the session up in the SESSION STORE by access
jti, reject if absent/revoked/expired, then load the user and reject if
inactive.  Note: this per-request hot path performs no Session Cache
lookup — the only session source it consults is the store. -/
def get_current_user (db : Db) (tok : Token) (now : Nat) :
    Except TokenAuthError User :=
  match jwtDecode tok now with
  | none => Except.error TokenAuthError.invalidToken
  | some payload =>
    match payload.sub with
    | none => Except.error TokenAuthError.invalidToken
    | some user_id_str =>
      match payload.jti with
      | none => Except.error TokenAuthError.invalidToken
      | some token_jti =>
        if payload.type ≠ some "access" then
          Except.error TokenAuthError.invalidTokenType
        else
          match parseUserId user_id_str with
          | none => Except.error TokenAuthError.invalidToken
          | some user_id =>
            match find_by_access_jti db.sessions token_jti with
            | none => Except.error TokenAuthError.sessionNotFound
            | some session =>
              if session.is_revoked then
                Except.error TokenAuthError.sessionRevoked
              else if session.expires_at < now then
                Except.error TokenAuthError.sessionExpired
              else
                match get_user_by_id db.users user_id with
                | none => Except.error TokenAuthError.userNotFound
                | some user =>
                  if !user.is_active then
                    Except.error TokenAuthError.userInactive
                  else
                    Except.ok user

/-- `get_current_session` (`app/core/dependencies.py`): like
`get_current_user` but only needs the `jti` claim, and returns the store
session row (used by the logout endpoint). -/
def get_current_session (db : Db) (tok : Token) (now : Nat) :
    Except TokenAuthError Session :=
  match jwtDecode tok now with
  | none => Except.error TokenAuthError.invalidToken
  | some payload =>
    match payload.jti with
    | none => Except.error TokenAuthError.invalidToken
    | some token_jti =>
      if payload.type ≠ some "access" then
        Except.error TokenAuthError.invalidTokenType
      else
        match find_by_access_jti db.sessions token_jti with
        | none => Except.error TokenAuthError.sessionNotFound
        | some session =>
          if session.is_revoked then
            Except.error TokenAuthError.sessionRevoked
          else if session.expires_at < now then
            Except.error TokenAuthError.sessionExpired
          else
            Except.ok session

/-- `settings.access_token_expire_minutes` (`app/core/config.py`,
default 30). -/
def ACCESS_TOKEN_EXPIRE_MINUTES : Nat := 30

/-- The response body shape of login/refresh (`TokenResponse` in
`app/schemas/auth.py`). -/
structure TokenResponse where
  access_token : Token
  refresh_token : Token
  token_type : String
  expires_in : Nat
deriving DecidableEq, Repr

/-- The access-token payload built by the login and refresh endpoints
(`app/api/v1/auth.py`): subject, email, ALL of the user's role names
(no `is_active` filter at this site), the fresh jti, kind tag and
absolute expiry. -/
def mkAccessPayload (user : User) (jti : String) (exp : Nat) : TokenPayload :=
  { sub := some (toString user.id)
    email := some user.email
    roles := user.roles.map (fun r => r.name)
    jti := some jti
    type := some "access"
    exp := exp }

/-- The minimal refresh-token payload built by the login and refresh
endpoints (`app/api/v1/auth.py`). -/
def mkRefreshPayload (user : User) (jti : String) (exp : Nat) : TokenPayload :=
  { sub := some (toString user.id)
    email := none
    roles := []
    jti := some jti
    type := some "refresh"
    exp := exp }

/-- `refresh_token` endpoint (`app/api/v1/auth.py`): decode/verify the
refresh token (signature + its own embedded `exp`); require the `sub` and
`jti` claims and `type == "refresh"`; parse the user id; look the session
up by REFRESH jti; reject if absent, revoked, or the session row's
`expires_at` has passed; load the user and reject if inactive; then mint
a brand-new jti pair (the fresh uuid4 values are the `new_access_jti` /
`new_refresh_jti` parameters), rotate the session row in place (both jti
columns, `expires_at` moved to the new ACCESS-token expiry,
`last_activity_at`) and commit, returning the new pair. -/
def refresh_token_op (db : Db) (tok : Token) (now : Nat)
    (new_access_jti new_refresh_jti : String) :
    Except TokenAuthError (TokenResponse × Db) :=
  match jwtDecode tok now with
  | none => Except.error TokenAuthError.invalidToken
  | some payload =>
    match payload.sub with
    | none => Except.error TokenAuthError.invalidToken
    | some user_id_str =>
      match payload.jti with
      | none => Except.error TokenAuthError.invalidToken
      | some refresh_jti =>
        if payload.type ≠ some "refresh" then
          Except.error TokenAuthError.invalidTokenType
        else
          match parseUserId user_id_str with
          | none => Except.error TokenAuthError.invalidToken
          | some user_id =>
            match find_by_refresh_jti db.sessions refresh_jti with
            | none => Except.error TokenAuthError.sessionNotFound
            | some session =>
              if session.is_revoked then
                Except.error TokenAuthError.sessionRevoked
              else if session.expires_at < now then
                Except.error TokenAuthError.sessionExpired
              else
                match get_user_by_id db.users user_id with
                | none => Except.error TokenAuthError.userNotFound
                | some user =>
                  if !user.is_active then
                    Except.error TokenAuthError.userInactive
                  else
                    let access_exp := now + ACCESS_TOKEN_EXPIRE_MINUTES * 60
                    let refresh_exp := now + 7 * 24 * 60 * 60
                    let session2 := { session with
                      token_jti := new_access_jti
                      refresh_token_jti := some new_refresh_jti
                      expires_at := access_exp
                      last_activity_at := some now }
                    let db2 := { db with
                      sessions := updateSessionList db.sessions session2 }
                    Except.ok
                      ({ access_token :=
                           Token.signed (mkAccessPayload user new_access_jti access_exp)
                         refresh_token :=
                           Token.signed (mkRefreshPayload user new_refresh_jti refresh_exp)
                         token_type := "bearer"
                         expires_in := ACCESS_TOKEN_EXPIRE_MINUTES * 60 }, db2)

/-- `logout` endpoint (`app/api/v1/auth.py`): resolve the current session
via `get_current_session`, call `session.revoke()` and commit.  The
endpoint makes no `cache_service` call of any kind. -/
def logout (db : Db) (tok : Token) (now : Nat) :
    Except TokenAuthError Db :=
  match get_current_session db tok now with
  | Except.error e => Except.error e
  | Except.ok session =>
    let session2 := session.revoke now
    Except.ok { db with sessions := updateSessionList db.sessions session2 }

/-- `SESSION_CACHE_TTL` (`app/services/cache_service.py`): fixed 900 s. -/
def SESSION_CACHE_TTL : Nat := 900

/-- `SESSION_CACHE_PREFIX` (`app/services/cache_service.py`). -/
def SESSION_CACHE_PREFIX : String := "session"

/-- `_get_session_cache_key` (`app/services/cache_service.py`):
`f"{SESSION_CACHE_PREFIX}:{token_jti}"`. -/
def get_session_cache_key (token_jti : String) : String :=
  SESSION_CACHE_PREFIX ++ ":" ++ token_jti

/-- The denormalized snapshot stored by `cache_session`
(`app/services/cache_service.py`). -/
structure CachedSession where
  user_id : String
  email : String
  roles : List String
  is_revoked : Bool
  expires_at : Nat
  session_id : String
deriving DecidableEq, Repr

/-- One Redis key: the value plus the absolute wall-clock time at which
the key's TTL lapses (`setex key ttl value` at time `t` yields
`expiry = t + ttl`). -/
structure CacheEntry where
  key : String
  value : CachedSession
  expiry : Nat
deriving DecidableEq, Repr

/-- The Redis keyspace used by the session cache (assumed reachable;
unavailability is the degrade-to-store path, out of scope here). -/
abbrev Cache := List CacheEntry

/-- `cache_session` (`app/services/cache_service.py`): builds the
snapshot (active-role names only, current revocation flag and the
session's `expires_at`) and stores it under `session:{token_jti}` with
`client.setex(cache_key, SESSION_CACHE_TTL, cache_json)` — the TTL is the
FIXED `SESSION_CACHE_TTL`, independent of `session.expires_at`. -/
def cache_session (cache : Cache) (session : Session) (user : User)
    (now : Nat) : Cache :=
  let key := get_session_cache_key session.token_jti
  let data : CachedSession :=
    { user_id := toString session.user_id
      email := user.email
      roles := (user.roles.filter (fun r => r.is_active)).map (fun r => r.name)
      is_revoked := session.is_revoked
      expires_at := session.expires_at
      session_id := toString session.id }
  { key := key, value := data, expiry := now + SESSION_CACHE_TTL } ::
    cache.filter (fun e => e.key ≠ key)

/-- `get_cached_session` (`app/services/cache_service.py`) as observed
through Redis: a key whose TTL has lapsed is a miss. -/
def get_cached_session (cache : Cache) (token_jti : String) (now : Nat) :
    Option CachedSession :=
  match cache.find? (fun e => e.key == get_session_cache_key token_jti) with
  | some e => if now < e.expiry then some e.value else none
  | none => none

/-- `invalidate_session` (`app/services/cache_service.py`):
`client.delete(cache_key)`. -/
def invalidate_session (cache : Cache) (token_jti : String) : Cache :=
  cache.filter (fun e => e.key ≠ get_session_cache_key token_jti)

/-- The whole mutable state a request touches: the relational store and
the Redis keyspace. -/
structure AppState where
  db : Db
  cache : Cache
deriving DecidableEq, Repr

/-- The request-time authentication operation at the system-state level:
`get_current_user` (`app/core/dependencies.py`) issues only store
queries, so the cache component passes through unchanged — the code
contains no `cache_service` call on this path. -/
def app_get_current_user (st : AppState) (tok : Token) (now : Nat) :
    Except TokenAuthError User × AppState :=
  (get_current_user st.db tok now, st)

/-- The logout endpoint at the system-state level: `logout`
(`app/api/v1/auth.py`) revokes the store row and commits; it issues no
cache invalidation, so the cache component passes through unchanged. -/
def app_logout (st : AppState) (tok : Token) (now : Nat) :
    Except TokenAuthError AppState :=
  match logout st.db tok now with
  | Except.error e => Except.error e
  | Except.ok db2 => Except.ok { db := db2, cache := st.cache }

/-- The spec's words for `authenticate_request` (§4.4 of the spec),
stated as a second definition for comparison with the code's
`get_current_user`: after decoding the access token, FIRST attempt a
Session Cache lookup by the access jti; on a hit decide revocation and
expiry from the cached snapshot with no store trip; on a miss fall back
to the Session Store lookup, reject if absent/revoked/expired, and
repopulate the cache as a side effect; finally load the live user and
reject if inactive. -/
def spec_authenticate_request (st : AppState) (tok : Token) (now : Nat) :
    Except TokenAuthError User × AppState :=
  match jwtDecode tok now with
  | none => (Except.error TokenAuthError.invalidToken, st)
  | some payload =>
    match payload.sub with
    | none => (Except.error TokenAuthError.invalidToken, st)
    | some user_id_str =>
      match payload.jti with
      | none => (Except.error TokenAuthError.invalidToken, st)
      | some token_jti =>
        if payload.type ≠ some "access" then
          (Except.error TokenAuthError.invalidTokenType, st)
        else
          match parseUserId user_id_str with
          | none => (Except.error TokenAuthError.invalidToken, st)
          | some user_id =>
            match get_cached_session st.cache token_jti now with
            | some snap =>
              if snap.is_revoked then
                (Except.error TokenAuthError.sessionRevoked, st)
              else if snap.expires_at < now then
                (Except.error TokenAuthError.sessionExpired, st)
              else
                match get_user_by_id st.db.users user_id with
                | none => (Except.error TokenAuthError.userNotFound, st)
                | some user =>
                  if !user.is_active then
                    (Except.error TokenAuthError.userInactive, st)
                  else
                    (Except.ok user, st)
            | none =>
              match find_by_access_jti st.db.sessions token_jti with
              | none => (Except.error TokenAuthError.sessionNotFound, st)
              | some session =>
                if session.is_revoked then
                  (Except.error TokenAuthError.sessionRevoked, st)
                else if session.expires_at < now then
                  (Except.error TokenAuthError.sessionExpired, st)
                else
                  match get_user_by_id st.db.users user_id with
                  | none => (Except.error TokenAuthError.userNotFound, st)
                  | some user =>
                    if !user.is_active then
                      (Except.error TokenAuthError.userInactive, st)
                    else
                      (Except.ok user,
                       { st with cache := cache_session st.cache session user now })

/-- The spec's words for the cache `put` TTL (§4.3 of the spec), stated
as a second definition for comparison with the code's `cache_session`:
TTL = min(configured cache TTL, time remaining until
`session.expires_at`). -/
def spec_cache_session (cache : Cache) (session : Session) (user : User)
    (now : Nat) : Cache :=
  let key := get_session_cache_key session.token_jti
  let data : CachedSession :=
    { user_id := toString session.user_id
      email := user.email
      roles := (user.roles.filter (fun r => r.is_active)).map (fun r => r.name)
      is_revoked := session.is_revoked
      expires_at := session.expires_at
      session_id := toString session.id }
  { key := key, value := data
    expiry := now + min SESSION_CACHE_TTL (session.expires_at - now) } ::
    cache.filter (fun e => e.key ≠ key)

/-- `require_permission`'s per-role permission harvest
(`app/core/dependencies.py`): an inactive role, a NULL/empty column, a
JSON decode error and a non-list JSON value all contribute nothing; a
JSON list contributes its elements. -/
def rolePerms (r : Role) : List String :=
  if r.is_active then
    match r.permissions with
    | some (PermPayload.list ps) => ps
    | _ => []
  else []

/-- The `user_permissions` set built by `require_permission`
(`app/core/dependencies.py`), as the concatenation of every role's
harvest (membership is all that is consumed). -/
def user_permissions (u : User) : List String :=
  (u.roles.map rolePerms).flatten

/-- The decision of `require_permission(required_permissions)`
(`app/core/dependencies.py`):
`any(perm in user_permissions for perm in required_permissions)`. -/
def has_required_permission (required : List String) (u : User) : Bool :=
  required.any (fun p => (user_permissions u).contains p)

/-- `Forbidden` (403) outcome of the access-control checkers. -/
inductive AccessError where
  | forbidden
deriving DecidableEq, Repr

/-- The inner `permission_checker` dependency of `require_permission`
(`app/core/dependencies.py`): 403 when the user holds none of the
required permissions across their active roles. -/
def require_permission (required : List String) (u : User) :
    Except AccessError Unit :=
  if has_required_permission required u then Except.ok ()
  else Except.error AccessError.forbidden

/-! ## Shared helper lemmas -/

/-- Pushing a `find?` through an element-wise rewrite of the list. -/
lemma find?_map_eq {α : Type} (l : List α) (f : α → α) (p q : α → Bool)
    (h : ∀ x ∈ l, p (f x) = q x) :
    (l.map f).find? p = (l.find? q).map f := by
  induction l with
  | nil => rfl
  | cons a t ih =>
    have ha := h a (by simp)
    by_cases hq : q a = true
    · rw [List.map_cons, List.find?_cons_of_pos _ (by rw [ha]; exact hq),
        List.find?_cons_of_pos _ hq, Option.map_some']
    · have hq' : q a = false := by simpa using hq
      rw [List.map_cons, List.find?_cons_of_neg _ (by rw [ha, hq']; simp),
        List.find?_cons_of_neg _ (by simp [hq']),
        ih (fun x hx => h x (by simp [hx]))]

/-- `find?` returns exactly the known witness when the predicate singles
it out. -/
lemma find?_eq_some_of_unique {α : Type} (l : List α) (q : α → Bool) (s : α)
    (hmem : s ∈ l) (hq : q s = true)
    (huniq : ∀ x ∈ l, q x = true → x = s) :
    l.find? q = some s := by
  induction l with
  | nil => cases hmem
  | cons a t ih =>
    by_cases h : q a = true
    · have : a = s := huniq a (by simp) h
      subst this
      exact List.find?_cons_of_pos _ h
    · rw [List.find?_cons_of_neg _ (by simpa using h)]
      cases hmem with
      | head => exact absurd hq h
      | tail _ hm => exact ih hm (fun x hx hx' => huniq x (by simp [hx]) hx')

/-- Structural description of a successful rotation: with every guard of
the refresh endpoint satisfied, `refresh_token_op` returns the freshly
minted pair and the in-place-rotated session table. -/
lemma refresh_token_op_eq_ok (db : Db) (p : TokenPayload) (now uid : Nat)
    (sid rjti ja jr : String) (s : Session) (u : User)
    (hexp : ¬ p.exp < now) (hsub : p.sub = some sid)
    (hjti : p.jti = some rjti) (htype : p.type = some "refresh")
    (hparse : parseUserId sid = some uid)
    (hfind : find_by_refresh_jti db.sessions rjti = some s)
    (hrev : s.is_revoked = false) (hnexp : ¬ s.expires_at < now)
    (huser : get_user_by_id db.users uid = some u)
    (hact : u.is_active = true) :
    refresh_token_op db (Token.signed p) now ja jr =
      Except.ok
        ({ access_token :=
             Token.signed (mkAccessPayload u ja (now + ACCESS_TOKEN_EXPIRE_MINUTES * 60))
           refresh_token :=
             Token.signed (mkRefreshPayload u jr (now + 7 * 24 * 60 * 60))
           token_type := "bearer"
           expires_in := ACCESS_TOKEN_EXPIRE_MINUTES * 60 },
         { db with sessions := updateSessionList db.sessions
                        { s with token_jti := ja, refresh_token_jti := some jr,
                                 expires_at := now + ACCESS_TOKEN_EXPIRE_MINUTES * 60,
                                 last_activity_at := some now } }) := by
  simp only [refresh_token_op, jwtDecode, if_neg hexp, hsub, hjti, htype,
    hparse, hfind, hrev, hnexp, huser, hact]
  simp

/-- Structural description of a successful request-time authentication:
with every guard of `get_current_user` satisfied, the store-valid user is
returned. -/
lemma get_current_user_eq_ok (db : Db) (p : TokenPayload) (now uid : Nat)
    (sid ajti : String) (s : Session) (u : User)
    (hexp : ¬ p.exp < now) (hsub : p.sub = some sid)
    (hjti : p.jti = some ajti) (htype : p.type = some "access")
    (hparse : parseUserId sid = some uid)
    (hfind : find_by_access_jti db.sessions ajti = some s)
    (hrev : s.is_revoked = false) (hnexp : ¬ s.expires_at < now)
    (huser : get_user_by_id db.users uid = some u)
    (hact : u.is_active = true) :
    get_current_user db (Token.signed p) now = Except.ok u := by
  simp only [get_current_user, jwtDecode, if_neg hexp, hsub, hjti, htype,
    hparse, hfind, hrev, hnexp, huser, hact]
  simp

/-! ## Concrete fixtures (used by witnesses and counterexamples) -/

/-- A concrete active role with one permission. -/
def roleUser : Role :=
  { id := 1, name := "User", is_active := true,
    permissions := some (PermPayload.list ["scan.read"]) }

/-- A concrete active, verified user. -/
def alice : User :=
  { id := 1, email := "alice@ex.com", username := "alice",
    password_hash := some "Secur3Pass!", status := UserStatus.active,
    is_verified := true, is_active := true, failed_login_attempts := 0,
    last_login_at := none, last_login_ip := none, roles := [roleUser] }

/-- A concrete password checker instantiating the abstract bcrypt
parameter for witnesses: the stored hash is the plaintext itself. -/
def verify_plain (password : String) (hash : Option String) : Bool :=
  hash == some password

/-- An already-revoked session (revoked at time 100). -/
def sessionRev : Session :=
  { id := 10, user_id := 1, token_jti := "a1", refresh_token_jti := some "r1",
    ip_address := none, user_agent := none, expires_at := 1800,
    is_revoked := true, revoked_at := some 100, last_activity_at := none,
    created_at := 0 }

/-- A live session about to expire (at 1010). -/
def shortSession : Session :=
  { id := 11, user_id := 1, token_jti := "a2", refresh_token_jti := some "r2",
    ip_address := none, user_agent := none, expires_at := 1010,
    is_revoked := false, revoked_at := none, last_activity_at := none,
    created_at := 1000 }

/-- A non-revoked session whose stored (access-window) expiry 100 has
already passed at the times used below. -/
def sessExpired : Session :=
  { id := 12, user_id := 1, token_jti := "a3", refresh_token_jti := some "r3",
    ip_address := none, user_agent := none, expires_at := 100,
    is_revoked := false, revoked_at := none, last_activity_at := none,
    created_at := 0 }

/-- Store containing `alice` and `sessExpired`. -/
def dbC5 : Db := { users := [alice], sessions := [sessExpired] }

/-- A refresh token for `sessExpired` whose own embedded expiry (10000)
is far in the future. -/
def tokC5 : Token :=
  Token.signed { sub := some "1", email := none, roles := [],
                 jti := some "r3", type := some "refresh", exp := 10000 }

/-! ## C7 — revocation idempotence -/

/-- C7 counterexample: revoking the already-revoked `sessionRev`
(revoked at 100) again at time 200 does NOT leave the session state
unchanged — `revoked_at` is overwritten with the new current time — so
"revoking a session that is already revoked leaves the session state
unchanged" is false as stated. -/
theorem revoke_changes_already_revoked :
    sessionRev.is_revoked = true ∧
    sessionRev.revoke 200 ≠ sessionRev ∧
    (sessionRev.revoke 200).revoked_at = some 200 := by decide

/-- C7 (amended): `revoke` sets the revocation flag and stamps the
revocation timestamp with the CURRENT clock; revoking an already-revoked
session raises no error and is absorbed — a re-revocation equals a single
revocation at the later call's time, so only `revoked_at` can change —
and it is a strict no-op exactly when the clock still reads the recorded
revocation time. -/
theorem revoke_idempotent_up_to_timestamp (s : Session) (t₁ t₂ : Nat) :
    (s.revoke t₁).is_revoked = true ∧
    (s.revoke t₁).revoked_at = some t₁ ∧
    (s.revoke t₁).revoke t₂ = s.revoke t₂ ∧
    (s.is_revoked = true → s.revoked_at = some t₂ → s.revoke t₂ = s) := by
  refine ⟨rfl, rfl, rfl, fun h1 h2 => ?_⟩
  simp only [Session.revoke, ← h1, ← h2]

/-- Witness for C7's amended theorem: re-revoking `sessionRev` at its own
recorded revocation time 100 is a strict no-op. -/
theorem revoke_idempotent_up_to_timestamp_witness :
    sessionRev.revoke 100 = sessionRev :=
  (revoke_idempotent_up_to_timestamp sessionRev 0 100).2.2.2 rfl rfl

/-! ## C6 — cache TTL -/

/-- C6 counterexample: at time 1000, caching `shortSession` (which
expires at 1010) stores the entry with the fixed TTL 900 — alive until
1900 — not with TTL min(900, 10) as the claim states; the entry produced
by the code differs from the spec's put and outlives the session's own
expiry window. -/
theorem cache_ttl_counterexample :
    cache_session [] shortSession alice 1000 ≠
      spec_cache_session [] shortSession alice 1000 ∧
    (cache_session [] shortSession alice 1000).head?.map CacheEntry.expiry =
      some 1900 ∧
    (spec_cache_session [] shortSession alice 1000).head?.map CacheEntry.expiry =
      some 1010 := by decide

/-- C6 (amended): `cache_session` stores the snapshot keyed by the access
jti with the FIXED configured TTL `SESSION_CACHE_TTL` (900 s), regardless
of the time remaining until `session.expires_at`; consequently, whenever
the session expires inside the TTL window, the cache entry's own expiry
strictly exceeds the session's `expires_at` (the snapshot can outlive the
session's window; it still embeds `expires_at` for callers to check). -/
theorem cache_session_fixed_ttl (cache : Cache) (s : Session) (u : User)
    (now : Nat) :
    ∃ e, cache_session cache s u now =
        e :: cache.filter (fun x => x.key ≠ get_session_cache_key s.token_jti) ∧
      e.key = get_session_cache_key s.token_jti ∧
      e.expiry = now + SESSION_CACHE_TTL ∧
      e.value.expires_at = s.expires_at ∧
      e.value.is_revoked = s.is_revoked ∧
      (s.expires_at < now + SESSION_CACHE_TTL → s.expires_at < e.expiry) := by
  refine ⟨_, rfl, rfl, rfl, rfl, rfl, fun h => h⟩

/-- Witness for C6's amended theorem: caching `shortSession` at time 1000
yields one entry whose cache expiry 1900 strictly exceeds the session's
own expiry 1010. -/
theorem cache_session_fixed_ttl_witness :
    ∃ e, cache_session [] shortSession alice 1000 = [e] ∧
      e.expiry = 1000 + SESSION_CACHE_TTL ∧
      shortSession.expires_at < e.expiry := by
  obtain ⟨e, h1, _, h3, _, _, h6⟩ :=
    cache_session_fixed_ttl [] shortSession alice 1000
  exact ⟨e, by simpa using h1, h3, h6 (by decide)⟩

/-! ## C5 — refresh lifetime -/

/-- C5 counterexample: at time 200 the refresh token `tokC5` has a valid
signature and an unexpired embedded `exp` (10000), its session `r3` is
not revoked — yet the refresh operation FAILS with the session-expired
401, because the session row's stored `expires_at` (100, the access
window) has passed.  This contradicts the claim that such a refresh
succeeds with refresh lifetime bounded purely by the token's own claim. -/
theorem refresh_session_expiry_counterexample :
    sessExpired.is_revoked = false ∧
    sessExpired.expires_at < 200 ∧
    ¬ (10000 : Nat) < 200 ∧
    refresh_token_op dbC5 tokC5 200 "na" "nr" =
      Except.error TokenAuthError.sessionExpired := by decide

/-- C5 (amended): the refresh operation checks BOTH expiries.  With the
refresh token's signature valid and its own embedded `exp` unexpired, the
session found by refresh jti and not revoked, and the user active, the
refresh fails with the session-expired 401 whenever the session row's
stored `expires_at` (which tracks the ACCESS-token window) has passed,
and succeeds otherwise: refresh lifetime is bounded by the earlier of the
token's signed claim and the session row's `expires_at`, not purely by
the token's claim. -/
theorem refresh_bounded_by_session_expiry (db : Db) (p : TokenPayload)
    (now uid : Nat) (sid rjti ja jr : String) (s : Session) (u : User)
    (hexp : ¬ p.exp < now) (hsub : p.sub = some sid)
    (hjti : p.jti = some rjti) (htype : p.type = some "refresh")
    (hparse : parseUserId sid = some uid)
    (hfind : find_by_refresh_jti db.sessions rjti = some s)
    (hrev : s.is_revoked = false)
    (huser : get_user_by_id db.users uid = some u)
    (hact : u.is_active = true) :
    (s.expires_at < now →
      refresh_token_op db (Token.signed p) now ja jr =
        Except.error TokenAuthError.sessionExpired) ∧
    (¬ s.expires_at < now →
      (refresh_token_op db (Token.signed p) now ja jr).isOk = true) := by
  constructor
  · intro hlt
    simp only [refresh_token_op, jwtDecode, if_neg hexp, hsub, hjti, htype,
      hparse, hfind, hrev, hlt]
    simp
  · intro hge
    rw [refresh_token_op_eq_ok db p now uid sid rjti ja jr s u hexp hsub hjti
      htype hparse hfind hrev hge huser hact]
    rfl

/-- Witness for C5's amended theorem, on the concrete store `dbC5`: at
time 200 (session window lapsed) the refresh is rejected as
session-expired; at time 50 (window still open) the same token refreshes
successfully. -/
theorem refresh_bounded_by_session_expiry_witness :
    refresh_token_op dbC5 tokC5 200 "na" "nr" =
      Except.error TokenAuthError.sessionExpired ∧
    (refresh_token_op dbC5 tokC5 50 "na" "nr").isOk = true := by
  constructor
  · exact (refresh_bounded_by_session_expiry dbC5 _ 200 1 "1" "r3" "na" "nr"
      sessExpired alice (by decide) rfl rfl rfl (by decide) (by decide) rfl
      (by decide) rfl).1 (by decide)
  · exact (refresh_bounded_by_session_expiry dbC5 _ 50 1 "1" "r3" "na" "nr"
      sessExpired alice (by decide) rfl rfl rfl (by decide) (by decide) rfl
      (by decide) rfl).2 (by decide)

/-! ## C10 — lockout does not bar refresh -/

/-- C10: account lockout does not bar token refresh.  For a user whose
account is locked (`is_account_locked`, i.e. status LOCKED or at least 5
failed attempts) but whose `is_active` flag is still true, a refresh with
a signature-valid, unexpired refresh token whose session is present, not
revoked and not expired still succeeds and issues a fresh pair: the
refresh path checks only `is_active`, never the lockout condition. -/
theorem refresh_ignores_lockout (db : Db) (p : TokenPayload)
    (now uid : Nat) (sid rjti ja jr : String) (s : Session) (u : User)
    (hexp : ¬ p.exp < now) (hsub : p.sub = some sid)
    (hjti : p.jti = some rjti) (htype : p.type = some "refresh")
    (hparse : parseUserId sid = some uid)
    (hfind : find_by_refresh_jti db.sessions rjti = some s)
    (hrev : s.is_revoked = false) (hnexp : ¬ s.expires_at < now)
    (huser : get_user_by_id db.users uid = some u)
    (hact : u.is_active = true)
    (hlock : u.is_account_locked = true) :
    (refresh_token_op db (Token.signed p) now ja jr).isOk = true := by
  rw [refresh_token_op_eq_ok db p now uid sid rjti ja jr s u hexp hsub hjti
    htype hparse hfind hrev hnexp huser hact]
  rfl

/-- A locked-out user (status LOCKED and 5 failed attempts) whose
`is_active` flag is still true. -/
def dave : User :=
  { id := 2, email := "dave@ex.com", username := "dave",
    password_hash := some "Dav3Pass!", status := UserStatus.locked,
    is_verified := true, is_active := true, failed_login_attempts := 5,
    last_login_at := none, last_login_ip := none, roles := [roleUser] }

/-- A live session belonging to `dave`. -/
def sessDave : Session :=
  { id := 14, user_id := 2, token_jti := "a6", refresh_token_jti := some "r6",
    ip_address := none, user_agent := none, expires_at := 1000,
    is_revoked := false, revoked_at := none, last_activity_at := none,
    created_at := 0 }

/-- Store containing the locked `dave` and his live session. -/
def dbC10 : Db := { users := [dave], sessions := [sessDave] }

/-- A valid refresh token for `sessDave`. -/
def tokC10 : Token :=
  Token.signed { sub := some "2", email := none, roles := [],
                 jti := some "r6", type := some "refresh", exp := 10000 }

/-- Witness for C10: the locked-out `dave` still refreshes successfully
at time 50. -/
theorem refresh_ignores_lockout_witness :
    dave.is_account_locked = true ∧
    (refresh_token_op dbC10 tokC10 50 "na6" "nr6").isOk = true := by
  refine ⟨by decide, ?_⟩
  exact refresh_ignores_lockout dbC10 _ 50 2 "2" "r6" "na6" "nr6" sessDave dave
    (by decide) rfl rfl rfl (by decide) (by decide) rfl (by decide) rfl rfl
    (by decide)

/-! ## C9 — the login inactive-gate checks only the is_active flag -/

/-- C9: the login-time "inactive" gate inspects only the boolean
`is_active` flag, not the status enum.  For a user found by the lookup
with `is_active = true`, fewer than 5 failed attempts, status not LOCKED
— in particular status "suspended" or "inactive" — and a correct
password, `authenticate_user` succeeds, and the recorded status is left
unchanged: an administrative status change alone, without clearing
`is_active`, does not block login. -/
theorem authenticate_ignores_status_when_active
    (verify : String → Option String → Bool) (users : List User)
    (ident pw : String) (ip : Option String) (now : Nat) (u : User)
    (hfind : lookup_user users ident = some u)
    (hstatus : u.status = UserStatus.suspended ∨ u.status = UserStatus.inactive)
    (hfail : u.failed_login_attempts < 5)
    (hact : u.is_active = true)
    (hpw : verify pw u.password_hash = true) :
    (authenticate_user verify users ident pw ip now).1 =
      Except.ok (u.record_login_attempt true ip now) ∧
    (u.record_login_attempt true ip now).status = u.status := by
  have hlock : u.is_account_locked = false := by
    rcases hstatus with h | h <;>
      simp [User.is_account_locked, h, Nat.not_le.mpr hfail]
  constructor
  · simp [authenticate_user, hfind, hlock, hact, hpw]
  · rcases hstatus with h | h <;>
      simp [User.record_login_attempt, h]

/-- A suspended (but still `is_active`) user with a correct password. -/
def carol : User :=
  { id := 3, email := "carol@ex.com", username := "carol",
    password_hash := some "Car0lPass!", status := UserStatus.suspended,
    is_verified := true, is_active := true, failed_login_attempts := 2,
    last_login_at := none, last_login_ip := none, roles := [roleUser] }

/-- Witness for C9: the suspended `carol` logs in successfully with the
correct password, and stays suspended. -/
theorem authenticate_ignores_status_when_active_witness :
    (authenticate_user verify_plain [carol] "carol@ex.com" "Car0lPass!"
        none 10).1 =
      Except.ok (carol.record_login_attempt true none 10) ∧
    (carol.record_login_attempt true none 10).status = UserStatus.suspended := by
  have h := authenticate_ignores_status_when_active verify_plain [carol]
    "carol@ex.com" "Car0lPass!" none 10 carol (by decide) (Or.inl rfl)
    (by decide) rfl (by decide)
  exact ⟨h.1, h.2.trans rfl⟩

/-! ## C2 — lockout-counter contract of authenticate -/

/-- C2: the lockout-counter contract of `authenticate_user` for a found
user.  (1) Once the account is locked (status LOCKED or counter ≥ 5),
every attempt — whatever the password — fails with AccountLocked and
commits nothing.  (2) For an unlocked, active account and a correct
password, authentication succeeds, the committed user has its failure
counter reset to 0, and a pending-verification account is promoted to
active/verified.  (3) For an unlocked, active account and a wrong
password, authentication fails with InvalidCredentials and the committed
user's counter is incremented by exactly 1, with the LOCKED status
applied in the same update when the counter reaches 5 (and the status
untouched below 5). -/
theorem authenticate_lockout_contract
    (verify : String → Option String → Bool) (users : List User)
    (ident pw : String) (ip : Option String) (now : Nat) (u : User)
    (hfind : lookup_user users ident = some u) :
    (u.is_account_locked = true →
      authenticate_user verify users ident pw ip now =
        (Except.error AuthError.accountLocked, users)) ∧
    (u.is_account_locked = false → u.is_active = true →
      verify pw u.password_hash = true →
      authenticate_user verify users ident pw ip now =
        (Except.ok (u.record_login_attempt true ip now),
         updateUserList users (u.record_login_attempt true ip now)) ∧
      (u.record_login_attempt true ip now).failed_login_attempts = 0 ∧
      (u.status = UserStatus.pending_verification →
        (u.record_login_attempt true ip now).status = UserStatus.active ∧
        (u.record_login_attempt true ip now).is_verified = true)) ∧
    (u.is_account_locked = false → u.is_active = true →
      verify pw u.password_hash = false →
      authenticate_user verify users ident pw ip now =
        (Except.error AuthError.invalidCredentials,
         updateUserList users (u.record_login_attempt false ip now)) ∧
      (u.record_login_attempt false ip now).failed_login_attempts =
        u.failed_login_attempts + 1 ∧
      (5 ≤ u.failed_login_attempts + 1 →
        (u.record_login_attempt false ip now).status = UserStatus.locked) ∧
      (u.failed_login_attempts + 1 < 5 →
        (u.record_login_attempt false ip now).status = u.status)) := by
  refine ⟨fun hlock => ?_, fun hlock hact hpw => ⟨?_, ?_, fun hp => ?_⟩,
    fun hlock hact hpw => ⟨?_, ?_, fun h5 => ?_, fun h5 => ?_⟩⟩
  · simp [authenticate_user, hfind, hlock]
  · simp [authenticate_user, hfind, hlock, hact, hpw]
  · by_cases hp : u.status = UserStatus.pending_verification <;>
      simp [User.record_login_attempt, hp]
  · simp [User.record_login_attempt, hp]
  · simp [authenticate_user, hfind, hlock, hact, hpw]
  · by_cases h5 : 5 ≤ u.failed_login_attempts + 1 <;>
      simp [User.record_login_attempt, User.lock_account, h5]
  · simp [User.record_login_attempt, User.lock_account, h5]
  · simp [User.record_login_attempt, User.lock_account, Nat.not_le.mpr h5]

/-- An active user one failed attempt away from lockout. -/
def erin : User :=
  { id := 4, email := "erin@ex.com", username := "erin",
    password_hash := some "Er1nPass!", status := UserStatus.active,
    is_verified := true, is_active := true, failed_login_attempts := 4,
    last_login_at := none, last_login_ip := none, roles := [roleUser] }

/-- Witness for C2, exercising all three branches on concrete users: the
locked `dave` is rejected with AccountLocked even with the correct
password; `alice` with the correct password succeeds with the counter
reset to 0; `erin` (4 prior failures) with a wrong password is rejected
with InvalidCredentials and the committed row is locked at counter 5. -/
theorem authenticate_lockout_contract_witness :
    authenticate_user verify_plain [dave] "dave@ex.com" "Dav3Pass!" none 20 =
      (Except.error AuthError.accountLocked, [dave]) ∧
    (authenticate_user verify_plain [alice] "alice@ex.com" "Secur3Pass!"
        none 20 =
      (Except.ok (alice.record_login_attempt true none 20),
       updateUserList [alice] (alice.record_login_attempt true none 20)) ∧
     (alice.record_login_attempt true none 20).failed_login_attempts = 0) ∧
    (authenticate_user verify_plain [erin] "erin@ex.com" "wrong" none 20 =
      (Except.error AuthError.invalidCredentials,
       updateUserList [erin] (erin.record_login_attempt false none 20)) ∧
     (erin.record_login_attempt false none 20).failed_login_attempts = 5 ∧
     (erin.record_login_attempt false none 20).status = UserStatus.locked) := by
  refine ⟨?_, ?_, ?_⟩
  · exact (authenticate_lockout_contract verify_plain [dave] "dave@ex.com"
      "Dav3Pass!" none 20 dave (by decide)).1 (by decide)
  · have h := (authenticate_lockout_contract verify_plain [alice]
      "alice@ex.com" "Secur3Pass!" none 20 alice (by decide)).2.1
      (by decide) rfl (by decide)
    exact ⟨h.1, h.2.1⟩
  · have h := (authenticate_lockout_contract verify_plain [erin]
      "erin@ex.com" "wrong" none 20 erin (by decide)).2.2
      (by decide) rfl (by decide)
    exact ⟨h.1, h.2.1, h.2.2.1 (by decide)⟩

/-! ## C8 — permission check semantics -/

/-- Membership in a single role's permission harvest: only an ACTIVE role
whose stored payload decodes to a list contributes, and it contributes
exactly that list's elements. -/
lemma mem_rolePerms (p : String) (r : Role) :
    p ∈ rolePerms r ↔
      r.is_active = true ∧
        ∃ ps, r.permissions = some (PermPayload.list ps) ∧ p ∈ ps := by
  rcases r with ⟨rid, rname, ract, rperms⟩
  cases ract
  · simp [rolePerms]
  · cases rperms with
    | none => simp [rolePerms]
    | some pl => cases pl <;> simp [rolePerms]

/-- Membership in the harvested permission union. -/
lemma mem_user_permissions (p : String) (u : User) :
    p ∈ user_permissions u ↔
      ∃ r ∈ u.roles, r.is_active = true ∧
        ∃ ps, r.permissions = some (PermPayload.list ps) ∧ p ∈ ps := by
  simp only [user_permissions, List.mem_flatten, List.mem_map]
  constructor
  · rintro ⟨l, ⟨r, hr, rfl⟩, hp⟩
    exact ⟨r, hr, (mem_rolePerms p r).mp hp⟩
  · rintro ⟨r, hr, hx⟩
    exact ⟨rolePerms r, ⟨r, hr, rfl⟩, (mem_rolePerms p r).mpr hx⟩

/-- C8: `require_permission` grants access iff some required permission
lies in the union of the permission lists of the user's ACTIVE roles,
and otherwise fails with Forbidden (OR semantics); a role whose stored
payload is malformed (non-JSON or non-list) contributes nothing and never
aborts the check — prepending such a role leaves the verdict unchanged. -/
theorem require_permission_semantics (required : List String) (u : User)
    (hne : required ≠ []) :
    (require_permission required u = Except.ok () ↔
      ∃ p ∈ required, ∃ r ∈ u.roles, r.is_active = true ∧
        ∃ ps, r.permissions = some (PermPayload.list ps) ∧ p ∈ ps) ∧
    (require_permission required u = Except.error AccessError.forbidden ↔
      ¬ ∃ p ∈ required, ∃ r ∈ u.roles, r.is_active = true ∧
        ∃ ps, r.permissions = some (PermPayload.list ps) ∧ p ∈ ps) ∧
    (∀ r₀ : Role,
      r₀.permissions = some PermPayload.malformed ∨
        r₀.permissions = some PermPayload.nonList →
      require_permission required { u with roles := r₀ :: u.roles } =
        require_permission required u) := by
  have key : has_required_permission required u = true ↔
      ∃ p ∈ required, ∃ r ∈ u.roles, r.is_active = true ∧
        ∃ ps, r.permissions = some (PermPayload.list ps) ∧ p ∈ ps := by
    simp only [has_required_permission, List.any_eq_true, List.contains,
      List.elem_eq_mem, decide_eq_true_eq, mem_user_permissions]
  refine ⟨?_, ?_, ?_⟩
  · rw [← key]
    cases h : has_required_permission required u <;>
      simp [require_permission, h]
  · rw [← key]
    cases h : has_required_permission required u <;>
      simp [require_permission, h]
  · intro r₀ hr₀
    have hempty : rolePerms r₀ = [] := by
      rcases hr₀ with h | h <;> simp [rolePerms, h]
    simp [require_permission, has_required_permission, user_permissions,
      hempty]

/-- An active role whose stored permission payload is malformed JSON. -/
def roleBroken : Role :=
  { id := 3, name := "Broken", is_active := true,
    permissions := some PermPayload.malformed }

/-- An active role granting `scan.create`. -/
def roleCreator : Role :=
  { id := 4, name := "Creator", is_active := true,
    permissions := some (PermPayload.list ["scan.create"]) }

/-- A user holding a malformed-payload role and a scan.create role. -/
def bob : User :=
  { id := 5, email := "bob@ex.com", username := "bob",
    password_hash := some "B0bPass!", status := UserStatus.active,
    is_verified := true, is_active := true, failed_login_attempts := 0,
    last_login_at := none, last_login_ip := none,
    roles := [roleBroken, roleCreator] }

/-- Witness for C8: `bob` passes `require_permission ["scan.create"]`
despite his first role's malformed payload, and prepending another
malformed role does not change the verdict. -/
theorem require_permission_semantics_witness :
    require_permission ["scan.create"] bob = Except.ok () ∧
    require_permission ["scan.create"] { bob with roles := roleBroken :: bob.roles } =
      require_permission ["scan.create"] bob := by
  have h := require_permission_semantics ["scan.create"] bob (by decide)
  exact ⟨h.1.mpr ⟨"scan.create", by decide, roleCreator, by decide, rfl,
    ["scan.create"], rfl, by decide⟩, h.2.2 roleBroken (Or.inl rfl)⟩

/-! ## C3 — the request hot path and the cache -/

/-- A live, non-revoked session for `alice` with access jti "a4". -/
def sessLive : Session :=
  { id := 13, user_id := 1, token_jti := "a4", refresh_token_jti := some "r4",
    ip_address := none, user_agent := none, expires_at := 1000,
    is_revoked := false, revoked_at := none, last_activity_at := none,
    created_at := 0 }

/-- Store containing `alice` and her live session. -/
def dbC3 : Db := { users := [alice], sessions := [sessLive] }

/-- A valid access token for `sessLive`. -/
def tokAccess : Token :=
  Token.signed { sub := some "1", email := some "alice@ex.com",
                 roles := ["User"], jti := some "a4",
                 type := some "access", exp := 1000 }

/-- A cached snapshot for jti "a4" flagged REVOKED. -/
def snapRevoked : CachedSession :=
  { user_id := "1", email := "alice@ex.com", roles := ["User"],
    is_revoked := true, expires_at := 1000, session_id := "13" }

/-- System state: store-valid session, cache snapshot flagged revoked. -/
def stC3 : AppState :=
  { db := dbC3,
    cache := [{ key := get_session_cache_key "a4", value := snapRevoked,
                expiry := 500 }] }

/-- C3 counterexample: at time 100 the cache holds an unexpired snapshot
for access jti "a4" flagged revoked — a hit, which under the claimed
cache-first behavior must be rejected as revoked with no store trip — yet
the code's request-time authentication returns `alice`, because
`get_current_user` never consults the cache.  Moreover, starting from an
empty cache, the claimed behavior repopulates the cache as a side effect
of the store fallback, while the code leaves the cache empty. -/
theorem authenticate_request_cache_counterexample :
    (app_get_current_user stC3 tokAccess 100).1 = Except.ok alice ∧
    (spec_authenticate_request stC3 tokAccess 100).1 =
      Except.error TokenAuthError.sessionRevoked ∧
    (app_get_current_user { stC3 with cache := [] } tokAccess 100).2.cache
      = [] ∧
    (spec_authenticate_request { stC3 with cache := [] } tokAccess 100).2.cache
      ≠ [] := by decide

/-- C3 (amended): the request-time authentication operation never
consults the Session Cache — its verdict is identical for any two cache
contents, and the final state's cache is always unchanged (in particular
never repopulated) — and the store half of the claim does hold: with an
empty cache it still returns the correct user for a store-valid session
(present by access jti, not revoked, not expired) and an active user. -/
theorem authenticate_request_store_only (db : Db) (cache cache' : Cache)
    (p : TokenPayload) (now uid : Nat) (sid ajti : String) (s : Session)
    (u : User)
    (hexp : ¬ p.exp < now) (hsub : p.sub = some sid)
    (hjti : p.jti = some ajti) (htype : p.type = some "access")
    (hparse : parseUserId sid = some uid)
    (hfind : find_by_access_jti db.sessions ajti = some s)
    (hrev : s.is_revoked = false) (hnexp : ¬ s.expires_at < now)
    (huser : get_user_by_id db.users uid = some u)
    (hact : u.is_active = true) :
    (app_get_current_user { db := db, cache := cache } (Token.signed p)
        now).1 =
      (app_get_current_user { db := db, cache := cache' } (Token.signed p)
        now).1 ∧
    (app_get_current_user { db := db, cache := cache } (Token.signed p)
        now).2.cache = cache ∧
    app_get_current_user { db := db, cache := [] } (Token.signed p) now =
      (Except.ok u, { db := db, cache := [] }) := by
  refine ⟨rfl, rfl, ?_⟩
  show (get_current_user db (Token.signed p) now, _) = _
  rw [get_current_user_eq_ok db p now uid sid ajti s u hexp hsub hjti htype
    hparse hfind hrev hnexp huser hact]

/-- Witness for C3's amended theorem: with the cache forcibly emptied,
the concrete store-valid state still authenticates to `alice`, and no
cache entry appears. -/
theorem authenticate_request_store_only_witness :
    app_get_current_user { db := dbC3, cache := [] } tokAccess 100 =
      (Except.ok alice, { db := dbC3, cache := [] }) := by
  exact (authenticate_request_store_only dbC3 [] [] _ 100 1 "1" "a4"
    sessLive alice (by decide) rfl rfl rfl (by decide) (by decide) rfl
    (by decide) (by decide) rfl).2.2

/-! ## C4 — logout and the cache -/

/-- A cached snapshot for jti "a4" still flagged VALID. -/
def snapLive : CachedSession :=
  { user_id := "1", email := "alice@ex.com", roles := ["User"],
    is_revoked := false, expires_at := 1000, session_id := "13" }

/-- System state before logout: live store session, live cache entry. -/
def stC4 : AppState :=
  { db := dbC3,
    cache := [{ key := get_session_cache_key "a4", value := snapLive,
                expiry := 500 }] }

/-- C4: the logout endpoint performs no cache invalidation at all — it
only revokes the Session Store row.  At time 100 a logout of `alice`'s
session succeeds, the store row is revoked, yet the cache still holds the
unexpired, valid-flagged snapshot for the very same access jti (deleting
it, as `invalidate_session` would, changes the cache) — the stale-valid
cache entry the claimed invalidate-cache-first ordering is meant to rule
out survives the store commit. -/
theorem logout_leaves_cache_entry :
    app_logout stC4 tokAccess 100 =
      Except.ok { db := { users := [alice], sessions := [sessLive.revoke 100] },
                  cache := stC4.cache } ∧
    get_cached_session stC4.cache "a4" 100 = some snapLive ∧
    invalidate_session stC4.cache "a4" ≠ stC4.cache := by decide

/-! ## C1 — refresh tokens are single-use -/

/-- C1: refresh tokens are single-use.  Under the refresh guards (valid
signature, unexpired embedded exp, `type = "refresh"`, session found by
refresh jti, not revoked, window open, user active), with the freshly
generated jtis distinct from every stored one (uuid4 freshness / the
store's unique-jti invariant: `hfresh_r`, `huniq_r`, `hfresh_a`,
`huniq_id`): the first refresh succeeds; a second refresh presenting the
SAME refresh token fails with the 401 session-not-found outcome, because
rotation replaced the row's `refresh_token_jti` in place so the lookup by
the old jti finds no session; and the access token returned by the first
call is accepted by the request-time authentication for the same user. -/
theorem refresh_token_single_use (db : Db) (p : TokenPayload)
    (now now₂ : Nat) (uid : Nat) (sid rjti ja jr ja₂ jr₂ : String)
    (s : Session) (u : User)
    (hexp : ¬ p.exp < now) (hsub : p.sub = some sid)
    (hjti : p.jti = some rjti) (htype : p.type = some "refresh")
    (hparse : parseUserId sid = some uid)
    (hfind : find_by_refresh_jti db.sessions rjti = some s)
    (hrev : s.is_revoked = false) (hnexp : ¬ s.expires_at < now)
    (huser : get_user_by_id db.users uid = some u)
    (hact : u.is_active = true)
    (hfresh_r : jr ≠ rjti)
    (huniq_r : ∀ x ∈ db.sessions, x.refresh_token_jti = some rjti →
      x.id = s.id)
    (hfresh_a : ∀ x ∈ db.sessions, x.token_jti ≠ ja)
    (huniq_id : ∀ x ∈ db.sessions, x.id = s.id → x = s)
    (hround : parseUserId (toString u.id) = some u.id)
    (hexp₂ : ¬ p.exp < now₂)
    (hnow₂ : ¬ now + ACCESS_TOKEN_EXPIRE_MINUTES * 60 < now₂) :
    ∃ res db₂,
      refresh_token_op db (Token.signed p) now ja jr =
        Except.ok (res, db₂) ∧
      refresh_token_op db₂ (Token.signed p) now₂ ja₂ jr₂ =
        Except.error TokenAuthError.sessionNotFound ∧
      get_current_user db₂ res.access_token now₂ = Except.ok u := by
  have hok := refresh_token_op_eq_ok db p now uid sid rjti ja jr s u hexp
    hsub hjti htype hparse hfind hrev hnexp huser hact
  set s2 : Session :=
    { s with token_jti := ja, refresh_token_jti := some jr,
             expires_at := now + ACCESS_TOKEN_EXPIRE_MINUTES * 60,
             last_activity_at := some now } with hs2
  have hmem : s ∈ db.sessions := List.mem_of_find?_eq_some hfind
  have huid : u.id = uid := by
    have := List.find?_some huser
    simpa using this
  -- after rotation, no session carries the old refresh jti
  have hnone : find_by_refresh_jti
      (List.map (fun v => if v.id = s.id then s2 else v) db.sessions) rjti
      = none := by
    rw [find_by_refresh_jti, List.find?_eq_none]
    intro x hx
    simp only [List.mem_map] at hx
    obtain ⟨y, hy, rfl⟩ := hx
    by_cases hid : y.id = s.id
    · simp only [if_pos hid]
      simp [hs2, hfresh_r]
    · simp only [if_neg hid]
      intro hcon
      exact hid (huniq_r y hy (by simpa using hcon))
  -- after rotation, the new access jti finds exactly the rotated row
  have hfindq : db.sessions.find? (fun x => x.id == s2.id) = some s := by
    apply find?_eq_some_of_unique _ _ s hmem (by simp)
    intro x hx hxq
    exact huniq_id x hx (by simpa using hxq)
  have hfind2 : find_by_access_jti (updateSessionList db.sessions s2) ja
      = some s2 := by
    rw [find_by_access_jti, updateSessionList]
    rw [find?_map_eq db.sessions _ _ (fun x => x.id == s2.id) ?side]
    · rw [hfindq, Option.map_some']
      simp
    case side =>
      intro x hx
      by_cases hid : (x.id == s2.id) = true
      · simp [hid]
      · simp only [hid]
        simp [hfresh_a x hx]
  refine ⟨_, _, hok, ?_, ?_⟩
  · simp only [refresh_token_op, jwtDecode, if_neg hexp₂, hsub, hjti, htype,
      hparse]
    simp [hnone, updateSessionList]
  · show get_current_user
      { db with sessions := updateSessionList db.sessions s2 }
      (Token.signed (mkAccessPayload u ja
        (now + ACCESS_TOKEN_EXPIRE_MINUTES * 60))) now₂ = Except.ok u
    exact get_current_user_eq_ok _ _ now₂ u.id (toString u.id) ja s2 u
      hnow₂ rfl rfl rfl hround hfind2 hrev hnow₂
      (by rw [huid]; exact huser) hact

/-- A valid refresh token for `sessLive` (refresh jti "r4"). -/
def tokRefreshC1 : Token :=
  Token.signed { sub := some "1", email := none, roles := [],
                 jti := some "r4", type := some "refresh", exp := 700000 }

/-- Witness for C1 on the concrete store `dbC3`: the first refresh at
time 100 succeeds; replaying the same refresh token at time 150 is
rejected with the session-not-found 401; the access token minted by the
first call authenticates `alice`. -/
theorem refresh_token_single_use_witness :
    ∃ res db₂,
      refresh_token_op dbC3 tokRefreshC1 100 "a9" "r9" =
        Except.ok (res, db₂) ∧
      refresh_token_op db₂ tokRefreshC1 150 "a10" "r10" =
        Except.error TokenAuthError.sessionNotFound ∧
      get_current_user db₂ res.access_token 150 = Except.ok alice := by
  exact refresh_token_single_use dbC3 _ 100 150 1 "1" "r4" "a9" "r9" "a10"
    "r10" sessLive alice (by decide) rfl rfl rfl (by decide) (by decide)
    rfl (by decide) (by decide) rfl (by decide) (by decide) (by decide)
    (by decide) (by decide) (by decide) (by decide)
